import Mathlib

/-!
Verification of the Go-EuroMillions-API repository: the database updater
(`go-euromillions-api-update.go`) and the read-only HTTP service
(`go-euromillions-api.go`), shallowly embedded in Lean 4.

The store (SQLite table `results`, one row per draw) is modelled as a list of
rows in insertion order.  Dates are canonical zero-padded ISO strings, so Go's
byte-lexicographic string comparison coincides with Lean's `String` order for
ASCII data; number cells are kept as the string tokens the updater passes to
`stmt.Exec`, and the read service's `Scan` into Go `int` is modelled by
integer parsing.
-/

namespace EuroMillions

/-- One row of the `results` table: the canonical date plus the seven numeric
tokens inserted by the updater, in column order
`number_1..number_5, star_1, star_2`. -/
structure Row where
  date : String
  nums : List String
deriving Repr, DecidableEq

/-- The query `SELECT date FROM results ORDER BY date DESC LIMIT 1` in `runUpdate`:
the maximum date string in the store.  On `sql.ErrNoRows` (empty store) the
Go variable `oldDate` keeps its zero value `""`, and the error is not
propagated, so the empty store yields `""`. -/
def latestDate (store : List Row) : String :=
  store.foldr (fun r acc => max r.date acc) ""

/-- The resolution of one per-source attempt that reached the date
comparison at the end of `runUpdate` (lines 314-339): the three log/return
branches. -/
inductive Outcome where
  | skipSame
  | persisted
  | skipStale
deriving Repr, DecidableEq

/-- The `INSERT INTO results ...` statement: appends one row; history is
append-only. -/
def insertRow (store : List Row) (date : String) (nums : List String) : List Row :=
  store ++ [⟨date, nums⟩]

/-- The error message of `runUpdate` line 323:
`"invalid number of results for insertion. Expected 7, got: %d"`. -/
def countErrorMsg (n : Nat) : String :=
  "invalid number of results for insertion. Expected 7, got: " ++ toString n

/-- The tail of `runUpdate` (lines 129-341) after a site-specific extraction
produced `newDate` and `numbers`: re-read the latest stored date, then the
three-way comparison; the insert happens only in the `newDate > oldDate`
branch and only after the exactly-7 check. -/
def runUpdateCore (store : List Row) (newDate : String) (numbers : List String) :
    Except String (List Row × Outcome) :=
  let oldDate := latestDate store
  if newDate = oldDate then
    .ok (store, .skipSame)
  else if oldDate < newDate then
    if numbers.length ≠ 7 then
      .error (countErrorMsg numbers.length)
    else
      .ok (insertRow store newDate numbers, .persisted)
  else
    .ok (store, .skipStale)

/-- Splits a character list at every occurrence of the separator `c`,
keeping empty segments, as `strings.Split` does. -/
def splitOnChar (c : Char) : List Char → List (List Char)
  | [] => [[]]
  | x :: xs =>
    match splitOnChar c xs with
    | [] => if x = c then [[], []] else [[x]]
    | y :: ys => if x = c then [] :: y :: ys else (x :: y) :: ys

/-- String splitting on a one-character separator, via `splitOnChar`. -/
def splitStr (c : Char) (s : String) : List String :=
  (splitOnChar c s.data).map String.mk

/-- ASCII lowercasing, as `strings.ToLower` acts on the data here. -/
def lowerStr (s : String) : String :=
  String.mk (s.data.map Char.toLower)

/-- Parses a non-empty all-digit character list as a decimal numeral. -/
def digitsToNat? (l : List Char) : Option Nat :=
  if l ≠ [] ∧ l.all Char.isDigit then
    some (l.foldl (fun acc c => acc * 10 + (c.toNat - '0'.toNat)) 0)
  else none

/-- Parses a decimal numeral string (no sign). -/
def strToNat? (s : String) : Option Nat :=
  digitsToNat? s.data

/-- Go `strconv.Atoi`: optional single leading `-` or `+` sign, then a
non-empty run of decimal digits (overflow aside, which no lottery token
reaches). -/
def atoi? (s : String) : Option Int :=
  match s.data with
  | [] => none
  | c :: rest =>
    if c = '-' then (digitsToNat? rest).map (fun n => -(n : Int))
    else if c = '+' then (digitsToNat? rest).map (fun n => (n : Int))
    else (digitsToNat? (c :: rest)).map (fun n => (n : Int))

/-- The three-letter month names of Go's `time` package
(`shortMonthNames`), 1-indexed by position. -/
def shortMonthNames : List String :=
  ["Jan", "Feb", "Mar", "Apr", "May", "Jun",
   "Jul", "Aug", "Sep", "Oct", "Nov", "Dec"]

/-- Month-name lookup of `time.Parse`: case-insensitive match against the
short month names, returning the 1-based month number. -/
def monthNumber (s : String) : Option Nat :=
  match shortMonthNames.findIdx? (fun m => lowerStr m = lowerStr s) with
  | some i => some (i + 1)
  | none => none

/-- Day count of a month, with Gregorian leap years, as `time.Parse` uses to
reject out-of-range days. -/
def daysInMonth (year month : Nat) : Nat :=
  if month = 2 then
    if year % 4 = 0 ∧ (year % 100 ≠ 0 ∨ year % 400 = 0) then 29 else 28
  else if month = 4 ∨ month = 6 ∨ month = 9 ∨ month = 11 then 30
  else 31

/-- Returns `true` iff every character of `s` is a decimal digit and `s` is
non-empty. -/
def allDigits (s : String) : Bool :=
  s.data ≠ [] && s.data.all (fun c => c.isDigit)

/-- Go `time.Parse("02-Jan-2006", s)` reduced to the fields the updater
uses: a two-digit day, a literal `-`, a short month name, a literal `-`, a
four-digit year, with the day checked against the month's length.  Returns
`(year, month, day)`. -/
def parseDayMonYear (s : String) : Option (Nat × Nat × Nat) :=
  match splitStr '-' s with
  | [dd, mon, yyyy] =>
    if allDigits dd ∧ dd.length = 2 ∧ allDigits yyyy ∧ yyyy.length = 4 then
      match monthNumber mon with
      | some m =>
        match strToNat? dd, strToNat? yyyy with
        | some d, some y =>
          if 1 ≤ d ∧ d ≤ daysInMonth y m then some (y, m, d) else none
        | _, _ => none
      | none => none
    else none
  | _ => none

/-- Left-pads a decimal rendering with zeros to width `w`, as `%0wd`. -/
def padZero (w n : Nat) : String :=
  let s := toString n
  String.mk (List.replicate (w - s.length) '0') ++ s

/-- Go `t.Format("2006-01-02")`: the canonical zero-padded ISO date. -/
def formatISO (ymd : Nat × Nat × Nat) : String :=
  padZero 4 ymd.1 ++ "-" ++ padZero 2 ymd.2.1 ++ "-" ++ padZero 2 ymd.2.2

/-- Drops a trailing carriage return, as the CSV reader does on `\r\n`
line endings. -/
def stripCR (l : List Char) : List Char :=
  match l.getLast? with
  | some c => if c = '\x0d' then l.dropLast else l
  | none => l

/-- One line of a CSV payload split into fields, modelling `encoding/csv`
on unquoted content: fields are separated by commas, a trailing `\r` is
stripped. -/
def csvFields (line : String) : List String :=
  (splitOnChar ',' (stripCR line.data)).map String.mk

/-- The records `csv.NewReader` yields from a payload with unquoted fields:
lines split on `\n`, blank lines skipped, each remaining line split on
commas. -/
def csvRecords (payload : String) : List (List String) :=
  ((splitStr '\n' payload).filter
      (fun l => l.data ≠ [] ∧ l.data ≠ ['\x0d'])).map csvFields

/-- Columns 1-7 of the first CSV data record: balls 1-5 then lucky stars 1
and 2, in that order. -/
def site5Numbers (record : List String) : List String :=
  [record.getD 1 "", record.getD 2 "", record.getD 3 "",
   record.getD 4 "", record.getD 5 "", record.getD 6 "", record.getD 7 ""]

/-- Case 5 of `runUpdate` (lines 261-308) after the fetch: read and discard the
CSV header, read the first data record (`encoding/csv` rejects a data record
whose field count differs from the header's), require at least 8 columns,
parse column 0 as a `02-Jan-2006` date and normalize it, take columns 1-7 as
the numbers, and require each to pass `strconv.Atoi` — naming the 1-based
position and the offending token otherwise. -/
def site5Extract (payload : String) : Except String (String × List String) :=
  match csvRecords payload with
  | [] => .error "failed to read CSV header: EOF"
  | [_] => .error "no data found in CSV"
  | header :: record :: _ =>
    if record.length ≠ header.length then
      .error "failed to read CSV record: wrong number of fields"
    else if record.length < 8 then
      .error ("invalid CSV format. Expected at least 8 columns, got " ++
        toString record.length)
    else
      match parseDayMonYear (record.getD 0 "") with
      | none => .error "date parsing error"
      | some ymd =>
        match ((site5Numbers record).enum.find? (fun p => (atoi? p.2).isNone)) with
        | some p => .error ("invalid number at position " ++ toString (p.1 + 1) ++
            ": " ++ p.2)
        | none => .ok (formatISO ymd, site5Numbers record)

/-! ## The read service (`go-euromillions-api.go`) -/

/-- The `Result` struct of the read service: date, five main numbers, two
stars, as scanned from one row. -/
structure ApiResult where
  date : String
  numbers : List Int
  stars : List Int
deriving Repr, DecidableEq

/-- Scanning `rows.Scan(&res.Date, &n1, ..., &s2)` of one stored row: the seven
stored tokens converted to integers (the SQLite driver's TEXT-to-int
conversion), the first five becoming `Numbers`, the last two `Stars`. -/
def scanRow (r : Row) : Option ApiResult :=
  match r.nums.mapM atoi? with
  | some vals => some ⟨r.date, vals.take 5, vals.drop 5⟩
  | none => none

/-- The query of `dateHandler` (lines 302-319):
`SELECT ... FROM results WHERE date = ?` via `QueryRow`, i.e. the first
stored row with that exact date, scanned into an `ApiResult`; `none` models
`sql.ErrNoRows` (404). -/
def dateLookup (store : List Row) (date : String) : Option ApiResult :=
  match store.find? (fun r => r.date == date) with
  | some r => scanRow r
  | none => none

/-- The `fmt.Sprintf` line of the plaintext branch of `sendResponse`:
`"Date: %s, Numbers: %d,%d,%d,%d,%d, Stars: %d,%d\n"`. -/
def plainLine (res : ApiResult) : String :=
  "Date: " ++ res.date ++ ", Numbers: " ++
    String.intercalate "," (res.numbers.map toString) ++ ", Stars: " ++
    String.intercalate "," (res.stars.map toString)

/-- The serialized body `sendResponse` (lines 437-475) writes, by shape:
for XML and JSON a single-element result set is encoded as the bare record
(`results[0]`), any other count as the wrapped `AllResults` element or the
JSON array; plaintext prints one line per record. -/
inductive Payload where
  | xmlSingle (r : ApiResult)
  | xmlAll (rs : List ApiResult)
  | plaintext (lines : List String)
  | jsonSingle (r : ApiResult)
  | jsonArray (rs : List ApiResult)
deriving Repr, DecidableEq

/-- Function `sendResponse`: dispatch on the lowercased `format` query parameter,
with JSON the default; in the XML and JSON branches a result set of length
exactly 1 is encoded as the bare single record. -/
def sendResponse (format : String) (results : List ApiResult) : Payload :=
  if lowerStr format = "xml" then
    match results with
    | [r] => .xmlSingle r
    | rs => .xmlAll rs
  else if lowerStr format = "plaintext" then
    .plaintext (results.map plainLine)
  else
    match results with
    | [r] => .jsonSingle r
    | rs => .jsonArray rs

/-- HTTP outcome of a read handler: a successful body, 404, or 500. -/
inductive HttpOutcome where
  | ok (p : Payload)
  | notFound (msg : String)
  | serverError (msg : String)
deriving Repr, DecidableEq

/-- Insertion step for `ORDER BY date DESC`: place `r` before the first row
whose date is not above it. -/
def insertDesc (r : Row) : List Row → List Row
  | [] => [r]
  | x :: xs => if x.date ≤ r.date then r :: x :: xs else x :: insertDesc r xs

/-- The query `SELECT ... FROM results ORDER BY date DESC`: the stored rows sorted by
date, newest first. -/
def orderByDateDesc (store : List Row) : List Row :=
  store.foldr insertDesc []

/-- Handler core `getAllResults` (lines 219-249): query all rows newest-first, scan each
(scan failure is a 500), 404 when the result set is empty, otherwise hand
the set to `sendResponse`. -/
def getAllResults (store : List Row) (format : String) : HttpOutcome :=
  match (orderByDateDesc store).mapM scanRow with
  | none => .serverError "Error processing results"
  | some results =>
    if results.isEmpty then .notFound "No results found"
    else .ok (sendResponse format results)

/-! ## The updater's driver (`main` of `go-euromillions-api-update.go`) -/

/-- The fixed site order of "all" mode (`sitesToUpdate := []int{1, 2, 3, 4, 5}`). -/
def sitesToUpdate : List Nat := [1, 2, 3, 4, 5]

/-- One per-source attempt of `runUpdate`, with the site-specific fetch and
extraction abstracted into its result `ext`: an extraction error returns
before the date comparison; otherwise the comparison/persist tail runs. -/
def runSite (store : List Row) (ext : Except String (String × List String)) :
    Except String (List Row × Outcome) :=
  match ext with
  | .error e => .error e
  | .ok (newDate, numbers) => runUpdateCore store newDate numbers

/-- The "all"-mode loop of `main` (lines 367-374): the sources run
sequentially in their fixed order against the same database; a source's
error is logged (recorded here) and the loop continues with the store
unchanged, since `runUpdate` errors before any insert takes effect. -/
def runAll (store : List Row) :
    List (Except String (String × List String)) →
      List Row × List (Except String Outcome)
  | [] => (store, [])
  | ext :: rest =>
    match runSite store ext with
    | .error msg =>
      let t := runAll store rest
      (t.1, .error msg :: t.2)
    | .ok (store', out) =>
      let t := runAll store' rest
      (t.1, .ok out :: t.2)

/-- An "all"-mode run over the five sites, each site's fetch+extraction
result given by the environment `env`. -/
def runAllSites (store : List Row)
    (env : Nat → Except String (String × List String)) :
    List Row × List (Except String Outcome) :=
  runAll store (sitesToUpdate.map env)

/-- Single-source mode (lines 375-383): `log.Fatal(err)` exits with status
1 on a `runUpdate` error, 0 otherwise. -/
def singleModeExitCode (res : Except String (List Row × Outcome)) : Nat :=
  match res with
  | .error _ => 1
  | .ok _ => 0

/-! ## Order facts about `latestDate` -/

theorem empty_le_string (s : String) : "" ≤ s :=
  not_lt.mp (fun h => List.Lex.not_nil_right _ _ (String.lt_iff_toList_lt.mp h))

theorem latestDate_nil : latestDate [] = "" := rfl

theorem latestDate_cons (r : Row) (rs : List Row) :
    latestDate (r :: rs) = max r.date (latestDate rs) := rfl

theorem latestDate_singleton (r : Row) : latestDate [r] = r.date := by
  rw [latestDate_cons, latestDate_nil]
  exact max_eq_left (empty_le_string _)

theorem latestDate_append (store : List Row) (r : Row) :
    latestDate (store ++ [r]) = max (latestDate store) r.date := by
  induction store with
  | nil =>
    rw [List.nil_append, latestDate_singleton, latestDate_nil]
    exact (max_eq_right (empty_le_string _)).symm
  | cons x xs ih =>
    rw [List.cons_append, latestDate_cons, ih, latestDate_cons, max_assoc]

theorem date_le_latest {r : Row} {store : List Row} (h : r ∈ store) :
    r.date ≤ latestDate store := by
  induction store with
  | nil => cases h
  | cons x xs ih =>
    rcases List.mem_cons.mp h with h1 | h2
    · rw [h1, latestDate_cons]; exact le_max_left _ _
    · rw [latestDate_cons]; exact le_trans (ih h2) (le_max_right _ _)

theorem latestDate_insertRow (store : List Row) (d : String) (nums : List String)
    (h : latestDate store < d) : latestDate (insertRow store d nums) = d := by
  rw [insertRow, latestDate_append]
  exact max_eq_right (le_of_lt h)

theorem no_stored_row_has_fresh_date {store : List Row} {d : String}
    (h : latestDate store < d) : ∀ r ∈ store, r.date ≠ d := by
  intro r hr heq
  exact absurd h (not_lt.mpr (heq ▸ date_le_latest hr))

/-! ## The three branches of the freshness decision -/

theorem runUpdateCore_skipSame (store : List Row) (numbers : List String)
    {newDate : String} (h : newDate = latestDate store) :
    runUpdateCore store newDate numbers = .ok (store, .skipSame) := by
  simp [runUpdateCore, h]

theorem runUpdateCore_persist (store : List Row) {d : String} {nums : List String}
    (hfresh : latestDate store < d) (hlen : nums.length = 7) :
    runUpdateCore store d nums = .ok (insertRow store d nums, .persisted) := by
  have hne : d ≠ latestDate store := ne_of_gt hfresh
  simp [runUpdateCore, hne, hfresh, hlen]

theorem runUpdateCore_skipStale (store : List Row) (numbers : List String)
    {newDate : String} (hstale : newDate < latestDate store) :
    runUpdateCore store newDate numbers = .ok (store, .skipStale) := by
  have hne : newDate ≠ latestDate store := ne_of_lt hstale
  have hnot : ¬ latestDate store < newDate := not_lt_of_gt hstale
  simp [runUpdateCore, hne, hnot]

theorem runUpdateCore_countError (store : List Row) {newDate : String}
    {numbers : List String} (hfresh : latestDate store < newDate)
    (hlen : numbers.length ≠ 7) :
    runUpdateCore store newDate numbers = .error (countErrorMsg numbers.length) := by
  have hne : newDate ≠ latestDate store := ne_of_gt hfresh
  simp [runUpdateCore, hne, hfresh, hlen]

theorem filter_insertRow_fresh (store : List Row) (d : String) (nums : List String)
    (h : latestDate store < d) :
    ((insertRow store d nums).filter (fun r => r.date == d)).length = 1 := by
  rw [insertRow, List.filter_append]
  have hnil : store.filter (fun r => r.date == d) = [] := by
    rw [List.filter_eq_nil_iff]
    intro r hr
    simpa using no_stored_row_has_fresh_date h r hr
  simp [hnil, List.filter]

theorem all_tokens_numeric_from (n : Nat) (l : List String)
    (h : ((l.enumFrom n).find? (fun p => (atoi? p.2).isNone)) = none) :
    ∀ tok ∈ l, (atoi? tok).isSome := by
  induction l generalizing n with
  | nil => intro tok h'; cases h'
  | cons a as ih =>
    intro tok htok
    rw [List.enumFrom] at h
    cases hpa : (atoi? a).isNone with
    | true =>
      rw [List.find?_cons_of_pos] at h
      · cases h
      · exact hpa
    | false =>
      rw [List.find?_cons_of_neg] at h
      · rcases List.mem_cons.mp htok with rfl | hmem
        · simp [Option.isSome_iff_ne_none, ← Option.isNone_iff_eq_none, hpa]
        · exact ih (n + 1) h tok hmem
      · simp [hpa]

theorem runUpdateCore_ok_inv (store : List Row) (newDate : String)
    (numbers : List String) (store' : List Row) (out : Outcome)
    (h : runUpdateCore store newDate numbers = .ok (store', out)) :
    (out = .persisted → numbers.length = 7 ∧
      store' = insertRow store newDate numbers) ∧
    (out ≠ .persisted → store' = store) := by
  by_cases h1 : newDate = latestDate store
  · rw [runUpdateCore_skipSame store numbers h1] at h
    obtain ⟨hs, ho⟩ : store = store' ∧ Outcome.skipSame = out := by simpa using h
    subst hs; subst ho
    exact ⟨fun hp => Outcome.noConfusion hp, fun _ => rfl⟩
  · by_cases h2 : latestDate store < newDate
    · by_cases h3 : numbers.length = 7
      · rw [runUpdateCore_persist store h2 h3] at h
        obtain ⟨hs, ho⟩ :
            insertRow store newDate numbers = store' ∧ Outcome.persisted = out := by
          simpa using h
        subst hs; subst ho
        exact ⟨fun _ => ⟨h3, rfl⟩, fun hn => absurd rfl hn⟩
      · rw [runUpdateCore_countError store h2 h3] at h
        exact Except.noConfusion h
    · have h4 : newDate < latestDate store := lt_of_le_of_ne (not_lt.mp h2) h1
      rw [runUpdateCore_skipStale store numbers h4] at h
      obtain ⟨hs, ho⟩ : store = store' ∧ Outcome.skipStale = out := by simpa using h
      subst hs; subst ho
      exact ⟨fun hp => Outcome.noConfusion hp, fun _ => rfl⟩

theorem site5Extract_ok_inv {payload d : String} {nums : List String}
    (hok : site5Extract payload = .ok (d, nums)) :
    nums.length = 7 ∧ ∀ tok ∈ nums, (atoi? tok).isSome := by
  unfold site5Extract at hok
  repeat' split at hok
  all_goals try exact Except.noConfusion hok
  rename_i hfind
  have hn := congrArg Prod.snd (Except.ok.inj hok)
  dsimp only at hn
  rw [← hn]
  exact ⟨by simp [site5Numbers], all_tokens_numeric_from 0 _ hfind⟩

theorem find?_append_of_none {α : Type} (p : α → Bool) (l₁ l₂ : List α)
    (h : l₁.find? p = none) : (l₁ ++ l₂).find? p = l₂.find? p := by
  induction l₁ with
  | nil => rfl
  | cons a as ih =>
    rw [List.find?_eq_none] at h
    have ha : ¬ p a := h a (List.mem_cons_self a as)
    rw [List.cons_append, List.find?_cons_of_neg _ ha]
    exact ih (by rw [List.find?_eq_none]; exact fun x hx => h x (List.mem_cons_of_mem a hx))

theorem dateLookup_insertRow_fresh (store : List Row) (d : String)
    (nums : List String) (h : latestDate store < d) :
    dateLookup (insertRow store d nums) d = scanRow ⟨d, nums⟩ := by
  unfold dateLookup insertRow
  have hnone : store.find? (fun r => r.date == d) = none := by
    rw [List.find?_eq_none]
    intro r hr
    simpa using no_stored_row_has_fresh_date h r hr
  rw [find?_append_of_none _ _ _ hnone]
  simp [List.find?]

theorem runAll_error_entries (store : List Row) (errs : List String)
    (rest : List (Except String (String × List String))) :
    runAll store (errs.map .error ++ rest) =
      ((runAll store rest).1, errs.map .error ++ (runAll store rest).2) := by
  induction errs with
  | nil => simp
  | cons e es ih => simp [runAll, runSite, ih]

theorem runAll_length (store : List Row)
    (exts : List (Except String (String × List String))) :
    (runAll store exts).2.length = exts.length := by
  induction exts generalizing store with
  | nil => rfl
  | cons e es ih =>
    cases h : runSite store e with
    | error msg => simp [runAll, h, ih]
    | ok p =>
      obtain ⟨store', out⟩ := p
      simp [runAll, h, ih]

/-! ## Claim theorems -/

/-- C1: for every per-source attempt that reaches the date comparison, the
freshness decision is the three-way policy on the string comparison of
canonical dates: an extracted date equal to the latest stored date is a
`SkipSame` no-op returning success without writing, and a strictly greater
date appends the record to the store. -/
theorem freshness_three_way_policy (store : List Row) (newDate : String)
    (numbers : List String) :
    (newDate = latestDate store →
      runUpdateCore store newDate numbers = .ok (store, .skipSame)) ∧
    (latestDate store < newDate → numbers.length = 7 →
      runUpdateCore store newDate numbers =
        .ok (insertRow store newDate numbers, .persisted)) :=
  ⟨fun h => runUpdateCore_skipSame store numbers h,
   fun hf hl => runUpdateCore_persist store hf hl⟩

/-- Witness for C1: with latest stored date `2024-01-15`, an extraction
dated `2024-01-15` is a no-op and an extraction dated `2024-01-22` is
appended. -/
theorem freshness_three_way_policy_witness :
    runUpdateCore [⟨"2024-01-15", ["1", "2", "3", "4", "5", "6", "7"]⟩]
        "2024-01-15" ["9", "9", "9", "9", "9", "9", "9"] =
      .ok ([⟨"2024-01-15", ["1", "2", "3", "4", "5", "6", "7"]⟩], .skipSame) ∧
    runUpdateCore [⟨"2024-01-15", ["1", "2", "3", "4", "5", "6", "7"]⟩]
        "2024-01-22" ["3", "17", "22", "41", "49", "5", "11"] =
      .ok ([⟨"2024-01-15", ["1", "2", "3", "4", "5", "6", "7"]⟩,
        ⟨"2024-01-22", ["3", "17", "22", "41", "49", "5", "11"]⟩], .persisted) := by
  have hlat : latestDate [(⟨"2024-01-15", ["1", "2", "3", "4", "5", "6", "7"]⟩ : Row)] =
      "2024-01-15" := latestDate_singleton _
  exact ⟨(freshness_three_way_policy _ _ _).1 hlat.symm,
    (freshness_three_way_policy _ _ _).2
      (by rw [hlat]; exact String.lt_iff_toList_lt.mpr (by decide)) rfl⟩

/-- C2: ingestion is idempotent — a fresh extraction is persisted, the
resulting store holds exactly one row for that date, and a second run
against the unchanged extraction re-reads the latest stored date, finds it
equal, and resolves to `SkipSame` without inserting. -/
theorem ingestion_idempotent (store : List Row) (d : String) (nums : List String)
    (hfresh : latestDate store < d) (hlen : nums.length = 7) :
    runUpdateCore store d nums = .ok (insertRow store d nums, .persisted) ∧
    ((insertRow store d nums).filter (fun r => r.date == d)).length = 1 ∧
    runUpdateCore (insertRow store d nums) d nums =
      .ok (insertRow store d nums, .skipSame) :=
  ⟨runUpdateCore_persist store hfresh hlen,
   filter_insertRow_fresh store d nums hfresh,
   runUpdateCore_skipSame _ _ (latestDate_insertRow store d nums hfresh).symm⟩

/-- Witness for C2: starting from the empty store, ingesting the
`2024-01-22` draw persists it once; the second run is a `SkipSame` no-op. -/
theorem ingestion_idempotent_witness :
    runUpdateCore [] "2024-01-22" ["3", "17", "22", "41", "49", "5", "11"] =
      .ok ([⟨"2024-01-22", ["3", "17", "22", "41", "49", "5", "11"]⟩], .persisted) ∧
    (([(⟨"2024-01-22", ["3", "17", "22", "41", "49", "5", "11"]⟩ : Row)]).filter
      (fun r => r.date == "2024-01-22")).length = 1 ∧
    runUpdateCore [⟨"2024-01-22", ["3", "17", "22", "41", "49", "5", "11"]⟩]
        "2024-01-22" ["3", "17", "22", "41", "49", "5", "11"] =
      .ok ([⟨"2024-01-22", ["3", "17", "22", "41", "49", "5", "11"]⟩], .skipSame) := by
  have hfresh : latestDate [] < "2024-01-22" := by
    rw [latestDate_nil]; exact String.lt_iff_toList_lt.mpr (by decide)
  exact ingestion_idempotent [] "2024-01-22"
    ["3", "17", "22", "41", "49", "5", "11"] hfresh rfl

/-- C3: a record whose date is strictly earlier than the current latest
stored date is never persisted: the attempt resolves to `SkipStale`, no
insert is executed, and the stored history is returned unchanged, whatever
the record's numbers are. -/
theorem stale_record_never_persisted (store : List Row) (newDate : String)
    (numbers : List String) (hstale : newDate < latestDate store) :
    runUpdateCore store newDate numbers = .ok (store, .skipStale) :=
  runUpdateCore_skipStale store numbers hstale

/-- Witness for C3: with latest stored date `2024-01-15`, a valid record
dated `2024-01-01` is skipped as stale and the store is unchanged. -/
theorem stale_record_never_persisted_witness :
    runUpdateCore [⟨"2024-01-15", ["1", "2", "3", "4", "5", "6", "7"]⟩]
        "2024-01-01" ["3", "17", "22", "41", "49", "5", "11"] =
      .ok ([⟨"2024-01-15", ["1", "2", "3", "4", "5", "6", "7"]⟩], .skipStale) := by
  have hlat : latestDate [(⟨"2024-01-15", ["1", "2", "3", "4", "5", "6", "7"]⟩ : Row)] =
      "2024-01-15" := latestDate_singleton _
  exact stale_record_never_persisted _ _ _
    (by rw [hlat]; exact String.lt_iff_toList_lt.mpr (by decide))

/-- C4: a combined token list is split and persisted only when it has
exactly 7 numeric tokens: in the persist branch a count other than 7 is
rejected with the error naming the actual count (covering both too few and
too many) and nothing is inserted — a persisted outcome forces exactly 7
tokens, and every non-persisting outcome leaves the store unchanged;
variant 5's pre-split extraction admits only 7 tokens that all pass
`strconv.Atoi`, and rejects a non-numeric token naming its position and
text. -/
theorem token_count_validation (store : List Row) (newDate : String)
    (numbers : List String) (payload d : String) (nums : List String) :
    (latestDate store < newDate → numbers.length ≠ 7 →
      runUpdateCore store newDate numbers = .error (countErrorMsg numbers.length)) ∧
    (∀ store' out, runUpdateCore store newDate numbers = .ok (store', out) →
      (out = .persisted → numbers.length = 7 ∧
        store' = insertRow store newDate numbers) ∧
      (out ≠ .persisted → store' = store)) ∧
    (site5Extract payload = .ok (d, nums) →
      nums.length = 7 ∧ ∀ tok ∈ nums, (atoi? tok).isSome) ∧
    site5Extract
        "DrawDate,Ball1,Ball2,Ball3,Ball4,Ball5,Star1,Star2\n22-Jan-2024,3,17,x,41,49,5,11" =
      .error "invalid number at position 3: x" :=
  ⟨fun hf hl => runUpdateCore_countError store hf hl,
   fun store' out h => runUpdateCore_ok_inv store newDate numbers store' out h,
   fun hok => site5Extract_ok_inv hok,
   by rfl⟩

/-- Witness for C4: a six-token extraction with a fresh date is rejected
naming the count 6; a concrete persisted outcome exhibits the exactly-7
shape; the well-formed CSV fixture yields 7 tokens that are all numeric. -/
theorem token_count_validation_witness :
    runUpdateCore [] "2024-01-22" ["3", "17", "22", "41", "49", "5"] =
      .error (countErrorMsg 6) ∧
    (["3", "17", "22", "41", "49", "5", "11"].length = 7 ∧
      insertRow [] "2024-01-22" ["3", "17", "22", "41", "49", "5", "11"] =
        insertRow [] "2024-01-22" ["3", "17", "22", "41", "49", "5", "11"]) ∧
    (["3", "17", "22", "41", "49", "5", "11"].length = 7 ∧
      ∀ tok ∈ ["3", "17", "22", "41", "49", "5", "11"], (atoi? tok).isSome) := by
  have hfresh : latestDate [] < "2024-01-22" := by
    rw [latestDate_nil]; exact String.lt_iff_toList_lt.mpr (by decide)
  refine ⟨?_, ?_, ?_⟩
  · exact (token_count_validation [] "2024-01-22" ["3", "17", "22", "41", "49", "5"]
      "" "" []).1 hfresh (by decide)
  · exact ((token_count_validation [] "2024-01-22"
      ["3", "17", "22", "41", "49", "5", "11"] "" "" []).2.1 _ _
      (runUpdateCore_persist [] hfresh rfl)).1 rfl
  · exact (token_count_validation [] "" []
      "DrawDate,Ball1,Ball2,Ball3,Ball4,Ball5,Star1,Star2\n22-Jan-2024,3,17,22,41,49,5,11"
      "2024-01-22" ["3", "17", "22", "41", "49", "5", "11"]).2.2.1 (by rfl)

/-- C5: round trip — a record persisted by the updater (date plus 7 numbers
inserted in column order) is returned by the read service's exact-date
lookup with the identical canonical date, the identical 5 main numbers in
their original order, and the identical 2 star numbers in their original
order. -/
theorem persisted_record_round_trip (store : List Row) (d : String)
    (nums : List String) (vals : List Int)
    (hfresh : latestDate store < d) (hlen : nums.length = 7)
    (hvals : nums.mapM atoi? = some vals) :
    runUpdateCore store d nums = .ok (insertRow store d nums, .persisted) ∧
    dateLookup (insertRow store d nums) d =
      some ⟨d, vals.take 5, vals.drop 5⟩ := by
  refine ⟨runUpdateCore_persist store hfresh hlen, ?_⟩
  rw [dateLookup_insertRow_fresh store d nums hfresh]
  have hvals' : List.mapM.loop atoi? nums [] = some vals := hvals
  simp [scanRow, hvals']

/-- Witness for C5: the `2024-01-22` draw persisted over the store holding
`2024-01-15` reads back with the same date, mains and stars. -/
theorem persisted_record_round_trip_witness :
    runUpdateCore [⟨"2024-01-15", ["1", "2", "3", "4", "5", "6", "7"]⟩]
        "2024-01-22" ["3", "17", "22", "41", "49", "5", "11"] =
      .ok (insertRow [⟨"2024-01-15", ["1", "2", "3", "4", "5", "6", "7"]⟩]
        "2024-01-22" ["3", "17", "22", "41", "49", "5", "11"], .persisted) ∧
    dateLookup (insertRow [⟨"2024-01-15", ["1", "2", "3", "4", "5", "6", "7"]⟩]
        "2024-01-22" ["3", "17", "22", "41", "49", "5", "11"]) "2024-01-22" =
      some ⟨"2024-01-22", [3, 17, 22, 41, 49], [5, 11]⟩ := by
  have hlat : latestDate [(⟨"2024-01-15", ["1", "2", "3", "4", "5", "6", "7"]⟩ : Row)] =
      "2024-01-15" := latestDate_singleton _
  exact persisted_record_round_trip _ "2024-01-22"
    ["3", "17", "22", "41", "49", "5", "11"] [3, 17, 22, 41, 49, 5, 11]
    (by rw [hlat]; exact String.lt_iff_toList_lt.mpr (by decide)) rfl rfl

/-- C6: CSV extraction (variant 5) on the fixture payload discards the
header row, reads the first data row at fixed column indices, normalizes
`22-Jan-2024` to the canonical `2024-01-22`, and the persisted tokens split
into main numbers `[3,17,22,41,49]` and star numbers `[5,11]`. -/
theorem csv_extraction_scenario :
    site5Extract
        "DrawDate,Ball1,Ball2,Ball3,Ball4,Ball5,Star1,Star2\n22-Jan-2024,3,17,22,41,49,5,11" =
      .ok ("2024-01-22", ["3", "17", "22", "41", "49", "5", "11"]) ∧
    scanRow ⟨"2024-01-22", ["3", "17", "22", "41", "49", "5", "11"]⟩ =
      some ⟨"2024-01-22", [3, 17, 22, 41, 49], [5, 11]⟩ :=
  ⟨rfl, rfl⟩

/-- C7: the freshness cursor is re-read from the store at every per-source
attempt, never cached: in an "all" run where the first source inserts a
draw for date `d`, any later source extracting the same date — whatever
failing sources come in between — observes `d` as the latest stored date
and resolves to `SkipSame`, leaving exactly one stored row for `d`. -/
theorem cursor_reread_not_cached (store : List Row) (d : String)
    (nums nums' : List String) (errs : List String)
    (hfresh : latestDate store < d) (hlen : nums.length = 7) :
    runAll store (.ok (d, nums) :: (errs.map .error ++ [.ok (d, nums')])) =
      (insertRow store d nums,
        .ok .persisted :: (errs.map .error ++ [.ok .skipSame])) ∧
    ((insertRow store d nums).filter (fun r => r.date == d)).length = 1 := by
  refine ⟨?_, filter_insertRow_fresh store d nums hfresh⟩
  have h1 : runSite store (.ok (d, nums)) =
      .ok (insertRow store d nums, .persisted) :=
    runUpdateCore_persist store hfresh hlen
  have h2 : runSite (insertRow store d nums) (.ok (d, nums')) =
      .ok (insertRow store d nums, .skipSame) :=
    runUpdateCore_skipSame _ _ (latestDate_insertRow store d nums hfresh).symm
  simp [runAll, h1, runAll_error_entries, h2]

/-- Witness for C7: Scenario C — source 1 inserts `2024-02-05` into the
store holding `2024-01-15`, sources 2 and 3 fail, and source 4 extracting
the same date resolves to `SkipSame` with no duplicate row. -/
theorem cursor_reread_not_cached_witness :
    runAll [⟨"2024-01-15", ["1", "2", "3", "4", "5", "6", "7"]⟩]
        [.ok ("2024-02-05", ["2", "14", "27", "33", "48", "4", "9"]),
         .error "failed to fetch page", .error "failed to fetch page",
         .ok ("2024-02-05", ["2", "14", "27", "33", "48", "4", "9"])] =
      (insertRow [⟨"2024-01-15", ["1", "2", "3", "4", "5", "6", "7"]⟩]
          "2024-02-05" ["2", "14", "27", "33", "48", "4", "9"],
        [.ok .persisted, .error "failed to fetch page",
         .error "failed to fetch page", .ok .skipSame]) ∧
    ((insertRow [⟨"2024-01-15", ["1", "2", "3", "4", "5", "6", "7"]⟩]
        "2024-02-05" ["2", "14", "27", "33", "48", "4", "9"]).filter
      (fun r => r.date == "2024-02-05")).length = 1 := by
  have hlat : latestDate [(⟨"2024-01-15", ["1", "2", "3", "4", "5", "6", "7"]⟩ : Row)] =
      "2024-01-15" := latestDate_singleton _
  exact cursor_reread_not_cached _ "2024-02-05"
    ["2", "14", "27", "33", "48", "4", "9"] ["2", "14", "27", "33", "48", "4", "9"]
    ["failed to fetch page", "failed to fetch page"]
    (by rw [hlat]; exact String.lt_iff_toList_lt.mpr (by decide)) rfl

/-- C8: error isolation — a failing source contributes its logged error and
leaves the store untouched while the run continues; every one of the five
sources of an "all" run, taken in the fixed order 1,2,3,4,5, produces its
own entry; in single-source mode an error exits with status 1 and success
with 0. -/
theorem per_source_error_isolation (store : List Row) (msg e : String)
    (rest exts : List (Except String (String × List String)))
    (env : Nat → Except String (String × List String)) :
    (runAll store (.error msg :: rest)).1 = (runAll store rest).1 ∧
    (runAll store (.error msg :: rest)).2 = .error msg :: (runAll store rest).2 ∧
    (runAll store exts).2.length = exts.length ∧
    (runAllSites store env).2.length = 5 ∧
    sitesToUpdate = [1, 2, 3, 4, 5] ∧
    singleModeExitCode (.error e) = 1 ∧
    ∀ res : List Row × Outcome, singleModeExitCode (.ok res) = 0 := by
  refine ⟨by simp [runAll, runSite], by simp [runAll, runSite],
    runAll_length store exts, ?_, rfl, rfl, fun _ => rfl⟩
  rw [runAllSites, runAll_length]
  rfl

/-- C9: on an empty store the latest-date query's no-rows outcome is not an
error and leaves the cursor at the empty string, below every non-empty
date, so the first validated record is always persisted. -/
theorem empty_store_first_record_persisted (d : String) (nums : List String)
    (hd : d ≠ "") (hlen : nums.length = 7) :
    latestDate [] = "" ∧
    runUpdateCore [] d nums = .ok ([⟨d, nums⟩], .persisted) := by
  have hlt : latestDate [] < d := by
    rw [latestDate_nil]
    exact lt_of_le_of_ne (empty_le_string d) (fun h => hd h.symm)
  exact ⟨rfl, runUpdateCore_persist [] hlt hlen⟩

/-- Witness for C9: the very first draw ingested into an empty store is
persisted. -/
theorem empty_store_first_record_persisted_witness :
    latestDate [] = "" ∧
    runUpdateCore [] "2024-01-22" ["3", "17", "22", "41", "49", "5", "11"] =
      .ok ([⟨"2024-01-22", ["3", "17", "22", "41", "49", "5", "11"]⟩], .persisted) :=
  empty_store_first_record_persisted "2024-01-22"
    ["3", "17", "22", "41", "49", "5", "11"] (by decide) rfl

/-- C10: in the read service the serialized body shape depends on the
result count — exactly one record is encoded as the bare single record, any
other count as the JSON array or wrapped XML element — so a GET of
`/results` against a store holding exactly one row returns a single
object. -/
theorem single_result_response_shape (r a b : ApiResult) (tl : List ApiResult)
    (row : Row) (res : ApiResult) (hscan : scanRow row = some res) :
    sendResponse "" [r] = .jsonSingle r ∧
    sendResponse "xml" [r] = .xmlSingle r ∧
    sendResponse "" (a :: b :: tl) = .jsonArray (a :: b :: tl) ∧
    sendResponse "xml" (a :: b :: tl) = .xmlAll (a :: b :: tl) ∧
    getAllResults [row] "" = .ok (.jsonSingle res) := by
  refine ⟨rfl, rfl, rfl, rfl, ?_⟩
  unfold getAllResults
  have hmap : (orderByDateDesc [row]).mapM scanRow = some [res] := by
    simp [orderByDateDesc, insertDesc, List.mapM, List.mapM.loop, hscan]
  rw [hmap]
  rfl

/-- Witness for C10: a one-row store served as JSON yields the bare single
record. -/
theorem single_result_response_shape_witness :
    sendResponse "" [(⟨"2024-01-15", [1, 2, 3, 4, 5], [6, 7]⟩ : ApiResult)] =
      .jsonSingle ⟨"2024-01-15", [1, 2, 3, 4, 5], [6, 7]⟩ ∧
    sendResponse "xml" [(⟨"2024-01-15", [1, 2, 3, 4, 5], [6, 7]⟩ : ApiResult)] =
      .xmlSingle ⟨"2024-01-15", [1, 2, 3, 4, 5], [6, 7]⟩ ∧
    sendResponse "" [⟨"2024-01-22", [3, 17, 22, 41, 49], [5, 11]⟩,
        (⟨"2024-01-15", [1, 2, 3, 4, 5], [6, 7]⟩ : ApiResult)] =
      .jsonArray [⟨"2024-01-22", [3, 17, 22, 41, 49], [5, 11]⟩,
        ⟨"2024-01-15", [1, 2, 3, 4, 5], [6, 7]⟩] ∧
    sendResponse "xml" [⟨"2024-01-22", [3, 17, 22, 41, 49], [5, 11]⟩,
        (⟨"2024-01-15", [1, 2, 3, 4, 5], [6, 7]⟩ : ApiResult)] =
      .xmlAll [⟨"2024-01-22", [3, 17, 22, 41, 49], [5, 11]⟩,
        ⟨"2024-01-15", [1, 2, 3, 4, 5], [6, 7]⟩] ∧
    getAllResults [⟨"2024-01-15", ["1", "2", "3", "4", "5", "6", "7"]⟩] "" =
      .ok (.jsonSingle ⟨"2024-01-15", [1, 2, 3, 4, 5], [6, 7]⟩) :=
  single_result_response_shape _ _ _ _
    ⟨"2024-01-15", ["1", "2", "3", "4", "5", "6", "7"]⟩
    ⟨"2024-01-15", [1, 2, 3, 4, 5], [6, 7]⟩ rfl

end EuroMillions
